import Mathlib

/-!
Verification of the funk-svd dataset acquisition module (funk_svd/dataset.py).

The module has three functions:
* get_data_dir_path  : resolves the base cache directory (abstracted here as
  the parameter base, since it only consults the environment and creates the
  directory);
* ml20m_ratings_csv_to_df : reads a csv file into a typed, timestamp-sorted
  table with a reset index;
* fetch_ml20m_ratings : the cache-resolution state machine (parse / unzip /
  download, recursing after each side effect).

The embedding models the filesystem as an association list from paths to file
contents, the HTTP transport and the data each collaborator may deliver as
explicit parameters, and machine floats as exact rationals (kept faithful for
decimal literals, the only numerals the csv schema feeds them). Python
recursion is modelled with an explicit fuel parameter; fuel 3 is enough for
every run in which the collaborators succeed.
-/

namespace FunkSvd

/-! ## Numeric parsing (models float(...) and the np.uint32 dtype on decimal literals) -/

def pow10 : Nat → Nat
  | 0 => 1
  | k + 1 => 10 * pow10 k

def digitsToNatAux : List Char → Nat → Option Nat
  | [], acc => some acc
  | c :: cs, acc =>
      if c.isDigit then digitsToNatAux cs (acc * 10 + (c.toNat - 48)) else none

def digitsToNat? : List Char → Option Nat
  | [] => none
  | l => digitsToNatAux l 0

/-- Split a character list at every occurrence of the separator. -/
def splitOnChar (sep : Char) : List Char → List (List Char)
  | [] => [[]]
  | c :: cs =>
      let r := splitOnChar sep cs
      if c = sep then [] :: r
      else
        match r with
        | [] => [[c]]
        | f :: rest => (c :: f) :: rest

def parseDecimalNonneg (f : List Char) : Option Rat :=
  match splitOnChar '.' f with
  | [a] => (digitsToNat? a).map (fun n => mkRat n 1)
  | [a, b] =>
      match digitsToNat? a, digitsToNat? b with
      | some n, some m => some (mkRat (n * pow10 b.length + m) (pow10 b.length))
      | _, _ => none
  | _ => none

/-- Models parsing a decimal literal to a float (exactly, as a rational). -/
def parseDecimal (f : List Char) : Except String Rat :=
  match f with
  | '-' :: rest =>
      match parseDecimalNonneg rest with
      | some q => .ok (-q)
      | none => .error (String.mk f)
  | _ =>
      match parseDecimalNonneg f with
      | some q => .ok q
      | none => .error (String.mk f)

/-- Models the np.uint32 dtype applied by read_csv to the id columns. -/
def parseUInt32 (f : List Char) : Except String Nat :=
  match digitsToNat? f with
  | some n => if n < 2 ^ 32 then .ok n else .error (String.mk f)
  | none => .error (String.mk f)

/-! ## The table data model -/

/-- One ratings row: (u_id, i_id, rating, timestamp).  The timestamp column is
fed through datetime.fromtimestamp(float(time)); since that conversion is
strictly monotone we keep the numeric epoch value, which sorts identically. -/
structure Record where
  u_id : Nat
  i_id : Nat
  rating : Rat
  timestamp : Rat
deriving DecidableEq, Repr

/-- A DataFrame: rows paired with their index labels. -/
abbrev Df := List (Nat × Record)

/-- Comparison used by df.sort_values(by="timestamp"). -/
def tsLe (a b : Nat × Record) : Prop := a.2.timestamp ≤ b.2.timestamp

instance : DecidableRel tsLe := fun a b =>
  inferInstanceAs (Decidable (a.2.timestamp ≤ b.2.timestamp))

instance : IsTotal (Nat × Record) tsLe := ⟨fun a b => le_total a.2.timestamp b.2.timestamp⟩

instance : IsTrans (Nat × Record) tsLe := ⟨fun _ _ _ => le_trans⟩

/-! ## Errors and the filesystem model -/

inductive Err where
  /-- A pandas parse or dtype failure (spec: DataFormatError). -/
  | dataFormat (msg : String)
  /-- Python UnboundLocalError: a local variable read before assignment. -/
  | unboundLocal (var : String)
  /-- Network fetch failure (spec: TransportError). -/
  | transport
  /-- zipfile.BadZipFile and friends (spec: ArchiveError). -/
  | archiveError
  /-- FileNotFoundError when opening a path. -/
  | notFound (p : String)
  /-- Fuel exhaustion: stands for nontermination of the unbounded recursion. -/
  | outOfFuel
deriving DecidableEq, Repr

deriving instance DecidableEq for Except

abbrev Path := String

/-- Contents a cache file can hold: a text file (list of lines), a well-formed
zip archive (named text entries), or the truncated bytes left by an
interrupted download. -/
inductive Entry where
  | text (lines : List String)
  | zipFile (entries : List (Path × List String))
  | partialData
deriving DecidableEq, Repr

/-- The cache directory subtree: an association list from paths to contents
(first binding wins). -/
abbrev FS := List (Path × Entry)

def lookupFS : FS → Path → Option Entry
  | [], _ => none
  | (q, e) :: fs, p => if p = q then some e else lookupFS fs p

/-- os.path.exists -/
def existsFS (fs : FS) (p : Path) : Bool := (lookupFS fs p).isSome

/-- Writing a file (open(p, "wb") plus the written bytes). -/
def insertFS (fs : FS) (p : Path) (e : Entry) : FS := (p, e) :: fs

/-- os.remove -/
def removeFS : FS → Path → FS
  | [], _ => []
  | (q, e) :: fs, p => if q = p then removeFS fs p else (q, e) :: removeFS fs p

/-! ## The csv loading adapter: ml20m_ratings_csv_to_df -/

/-- One data row, as parsed by the read_csv call of ml20m_ratings_csv_to_df:
four comma-separated fields, u_id and i_id as np.uint32, rating as float,
timestamp through the date parser (kept as its numeric value). -/
def parseRow (line : String) : Except Err Record :=
  match splitOnChar ',' line.data with
  | [u, i, r, t] =>
      match parseUInt32 u, parseUInt32 i, parseDecimal r, parseDecimal t with
      | .ok uid, .ok iid, .ok rat, .ok ts =>
          .ok { u_id := uid, i_id := iid, rating := rat, timestamp := ts }
      | .error m, _, _, _ => .error (.dataFormat m)
      | _, .error m, _, _ => .error (.dataFormat m)
      | _, _, .error m, _ => .error (.dataFormat m)
      | _, _, _, .error m => .error (.dataFormat m)
  | _ => .error (.dataFormat line)

def parseRows : List String → Except Err (List Record)
  | [] => .ok []
  | line :: rest =>
      match parseRow line with
      | .error e => .error e
      | .ok r =>
          match parseRows rest with
          | .error e => .error e
          | .ok rs => .ok (r :: rs)

/-- The parsing stage of pd.read_csv(csv_path, names=..., dtype=..., header=0,
parse_dates=...): discard the header row, parse the data rows, index the
result 0,1,2,.... An empty file raises EmptyDataError. -/
def parseCsvLines (lines : List String) : Except Err Df :=
  match lines with
  | [] => .error (.dataFormat "No columns to parse from file")
  | _hdr :: rows =>
      match parseRows rows with
      | .error e => .error e
      | .ok recs => .ok recs.enum

/-- pd.read_csv: open the file at p (a missing file raises FileNotFoundError)
and run the parsing stage on its lines. -/
def read_csv (fs : FS) (p : Path) : Except Err Df :=
  match lookupFS fs p with
  | none => .error (.notFound p)
  | some (.text lines) => parseCsvLines lines
  | some _ => .error (.dataFormat "not a text file")

/-- df.sort_values(by="timestamp"): reorder rows ascending by timestamp,
keeping each row paired with its old index label. -/
def sort_values (df : Df) : Df := List.insertionSort tsLe df

/-- df.reset_index(drop=True): drop the old index labels and renumber the
rows 0,1,2,... in their current order. -/
def reset_index (df : Df) : Df := (df.map Prod.snd).enum

/-- ml20m_ratings_csv_to_df: read the csv at csv_path, sort by timestamp,
reset the index. -/
def ml20m_ratings_csv_to_df (fs : FS) (csv_path : Path) : Except Err Df :=
  match read_csv fs csv_path with
  | .error e => .error e
  | .ok df => .ok (reset_index (sort_values df))

/-- The table ml20m_ratings_csv_to_df produces from given file lines:
loading factors through the file contents alone. -/
def dfOfLines (lines : List String) : Except Err Df :=
  match parseCsvLines lines with
  | .error e => .error e
  | .ok df => .ok (reset_index (sort_values df))

/-! ## The cache-resolution state machine: fetch_ml20m_ratings -/

/-- os.path.join of two components. -/
def pathJoin (a b : Path) : Path := a ++ "/" ++ b

def dirname : String := "ml-20m"

def filename : String := "ratings.csv"

/-- csv_path = os.path.join(data_dir_path, dirname, filename) -/
def csvPathOf (base : Path) : Path := pathJoin (pathJoin base dirname) filename

/-- zip_path = os.path.join(data_dir_path, dirname) + ".zip" -/
def zipPathOf (base : Path) : Path := pathJoin base dirname ++ ".zip"

/-- Modelled from the spec: the per-dataset directory, which the spec calls
directory_path = base/dataset-dirname.  The source assigns no such variable;
this definition exists to compare the spec wording about the extraction
destination with what the code passes to the extraction collaborator. -/
def directory_path (base : Path) : Path := pathJoin base dirname

/-- zf.extractall(target): write every entry of the archive under target. -/
def extractEntries (target : Path) (es : List (Path × List String)) (fs : FS) : FS :=
  es.foldl (fun acc pe => insertFS acc (pathJoin target pe.1) (.text pe.2)) fs

/-- with zipfile.ZipFile(zip_path, "r") as zf: zf.extractall(target).
Opening anything that is not a well-formed archive raises BadZipFile and
leaves the filesystem untouched. -/
def extractall (fs : FS) (zip_path target : Path) : Except Err FS :=
  match lookupFS fs zip_path with
  | some (.zipFile es) => .ok (extractEntries target es fs)
  | some _ => .error .archiveError
  | none => .error (.notFound zip_path)

/-- One behavior of the transport collaborator for
urllib.request.urlopen(url) followed by shutil.copyfileobj(r, f):
connection refused before the output file is opened, the stream breaking
after the file was opened and partially written, or a complete archive. -/
inductive NetOutcome where
  | connFail
  | midStreamFail
  | ok (entries : List (Path × List String))
deriving DecidableEq, Repr

/-- Side-effecting collaborator calls performed during one resolution, in
order: each network download and each archive extraction attempt. -/
inductive Ev where
  | download
  | extract
deriving DecidableEq, Repr

/-- fetch_ml20m_ratings.

base abstracts get_data_dir_path() (environment lookup plus directory
creation), net the transport collaborator, fuel the unbounded Python
recursion (fuel exhaustion stands for nontermination).  data_dir_path is the
optional explicit argument.  Returns the result, the final filesystem, and
the trace of collaborator calls.

The body mirrors the source: when data_dir_path is None the locals csv_path
and zip_path are both assigned; otherwise only csv_path is, and a later read
of zip_path raises UnboundLocalError.  The recursive calls are
fetch_ml20m_ratings() with no argument, hence data_dir_path = none. -/
def fetch_ml20m_ratings (net : NetOutcome) (base : Path) :
    Nat → Option Path → FS → Except Err Df × FS × List Ev
  | 0, _, fs => (.error .outOfFuel, fs, [])
  | fuel + 1, data_dir_path, fs =>
      let locals_ : Path × Option Path :=
        match data_dir_path with
        | none => (csvPathOf base, some (zipPathOf base))
        | some p => (p, none)
      let csv_path := locals_.1
      if existsFS fs csv_path then
        -- Return data loaded into a DataFrame
        (ml20m_ratings_csv_to_df fs csv_path, fs, [])
      else
        match locals_.2 with
        | none =>
            -- the elif condition reads the never-assigned local zip_path
            (.error (.unboundLocal "zip_path"), fs, [])
        | some zip_path =>
            if existsFS fs zip_path then
              -- Unzip file before calling back itself
              match extractall fs zip_path base with
              | .error e => (.error e, fs, [.extract])
              | .ok fs1 =>
                  let fs2 := removeFS fs1 zip_path
                  let r := fetch_ml20m_ratings net base fuel none fs2
                  (r.1, r.2.1, .extract :: r.2.2)
            else
              -- Download the ZIP file before calling back itself
              match net with
              | .connFail => (.error .transport, fs, [.download])
              | .midStreamFail =>
                  (.error .transport, insertFS fs zip_path .partialData, [.download])
              | .ok es =>
                  let fs1 := insertFS fs zip_path (.zipFile es)
                  let r := fetch_ml20m_ratings net base fuel none fs1
                  (r.1, r.2.1, .download :: r.2.2)

/-! ## Basic lemmas about the filesystem and path model -/

theorem lookupFS_insertFS (fs : FS) (p q : Path) (e : Entry) :
    lookupFS (insertFS fs p e) q = if q = p then some e else lookupFS fs q := rfl

theorem lookupFS_removeFS (fs : FS) (p q : Path) :
    lookupFS (removeFS fs p) q = if q = p then none else lookupFS fs q := by
  induction fs with
  | nil => simp [removeFS, lookupFS]
  | cons hd tl ih =>
      obtain ⟨a, e⟩ := hd
      by_cases hap : a = p <;> by_cases hqa : q = a <;>
        simp [removeFS, lookupFS, hap, hqa, ih] <;> simp_all

theorem existsFS_false_iff (fs : FS) (p : Path) :
    existsFS fs p = false ↔ lookupFS fs p = none := by
  unfold existsFS
  cases lookupFS fs p <;> simp

theorem existsFS_true_of_lookup {fs : FS} {p : Path} {e : Entry}
    (h : lookupFS fs p = some e) : existsFS fs p = true := by
  simp [existsFS, h]

theorem stringData_inj {s t : String} (h : s.data = t.data) : s = t := by
  cases s
  cases t
  exact congrArg String.mk h

theorem pathJoin_assoc_csv (base : Path) :
    pathJoin base (pathJoin dirname filename) = csvPathOf base := by
  apply stringData_inj
  simp [csvPathOf, pathJoin, String.data_append, List.append_assoc]

theorem csvPathOf_ne_zipPathOf (base : Path) : csvPathOf base ≠ zipPathOf base := by
  intro h
  have h2 := congrArg String.data h
  simp only [csvPathOf, zipPathOf, pathJoin, dirname, filename, String.data_append,
    List.append_assoc] at h2
  exact absurd (List.append_cancel_left h2) (by decide)

/-- Loading factors through the file content: if csv_path holds the lines L,
the resulting table is a function of L alone. -/
theorem ml20m_of_lookup {fs : FS} {p : Path} {L : List String}
    (h : lookupFS fs p = some (.text L)) :
    ml20m_ratings_csv_to_df fs p = dfOfLines L := by
  simp [ml20m_ratings_csv_to_df, dfOfLines, read_csv, h]

/-! ## Sorting and indexing lemmas for the loading adapter -/

theorem sorted_sort_values (df : Df) : List.Sorted tsLe (sort_values df) :=
  List.sorted_insertionSort tsLe df

theorem sorted_reset_index {df : Df} (h : List.Sorted tsLe df) :
    List.Sorted tsLe (reset_index df) := by
  unfold reset_index
  have h1 : List.Pairwise (fun a b : Record => a.timestamp ≤ b.timestamp) (df.map Prod.snd) := by
    rw [List.pairwise_map]
    exact h
  rw [(List.enum_map_snd (df.map Prod.snd)).symm.trans rfl] at h1
  rw [List.pairwise_map] at h1
  exact h1

theorem reset_index_fst (df : Df) :
    (reset_index df).map Prod.fst = List.range (reset_index df).length := by
  unfold reset_index
  rw [List.enum_map_fst]
  simp

/-! ## Branch lemmas for the state machine -/

theorem fetch_source_ready (net : NetOutcome) (base : Path) (n : Nat) (fs : FS)
    (h : existsFS fs (csvPathOf base) = true) :
    fetch_ml20m_ratings net base (n + 1) none fs =
      (ml20m_ratings_csv_to_df fs (csvPathOf base), fs, []) := by
  simp [fetch_ml20m_ratings, h]

theorem fetch_override_spec (net : NetOutcome) (base : Path) (n : Nat) (p : Path) (fs : FS) :
    fetch_ml20m_ratings net base (n + 1) (some p) fs =
      ((if existsFS fs p then ml20m_ratings_csv_to_df fs p
        else .error (.unboundLocal "zip_path")), fs, []) := by
  by_cases h : existsFS fs p = true <;> simp [fetch_ml20m_ratings, h]

theorem fetch_archive_ready (net : NetOutcome) (base : Path) (n : Nat) (fs : FS)
    (es : List (Path × List String))
    (hc : existsFS fs (csvPathOf base) = false)
    (hz : lookupFS fs (zipPathOf base) = some (.zipFile es)) :
    fetch_ml20m_ratings net base (n + 1) none fs =
      ((fetch_ml20m_ratings net base n none
          (removeFS (extractEntries base es fs) (zipPathOf base))).1,
       (fetch_ml20m_ratings net base n none
          (removeFS (extractEntries base es fs) (zipPathOf base))).2.1,
       .extract :: (fetch_ml20m_ratings net base n none
          (removeFS (extractEntries base es fs) (zipPathOf base))).2.2) := by
  have hze : existsFS fs (zipPathOf base) = true := existsFS_true_of_lookup hz
  simp [fetch_ml20m_ratings, hc, hze, extractall, hz]

theorem fetch_extract_fail (net : NetOutcome) (base : Path) (n : Nat) (fs : FS) (e : Err)
    (hc : existsFS fs (csvPathOf base) = false)
    (hz : existsFS fs (zipPathOf base) = true)
    (he : extractall fs (zipPathOf base) base = .error e) :
    fetch_ml20m_ratings net base (n + 1) none fs = (.error e, fs, [.extract]) := by
  simp [fetch_ml20m_ratings, hc, hz, he]

theorem fetch_empty_connFail (base : Path) (n : Nat) (fs : FS)
    (hc : existsFS fs (csvPathOf base) = false)
    (hz : existsFS fs (zipPathOf base) = false) :
    fetch_ml20m_ratings .connFail base (n + 1) none fs =
      (.error .transport, fs, [.download]) := by
  simp [fetch_ml20m_ratings, hc, hz]

theorem fetch_empty_midStream (base : Path) (n : Nat) (fs : FS)
    (hc : existsFS fs (csvPathOf base) = false)
    (hz : existsFS fs (zipPathOf base) = false) :
    fetch_ml20m_ratings .midStreamFail base (n + 1) none fs =
      (.error .transport, insertFS fs (zipPathOf base) .partialData, [.download]) := by
  simp [fetch_ml20m_ratings, hc, hz]

theorem fetch_empty_ok (base : Path) (n : Nat) (fs : FS) (es : List (Path × List String))
    (hc : existsFS fs (csvPathOf base) = false)
    (hz : existsFS fs (zipPathOf base) = false) :
    fetch_ml20m_ratings (.ok es) base (n + 1) none fs =
      ((fetch_ml20m_ratings (.ok es) base n none
          (insertFS fs (zipPathOf base) (.zipFile es))).1,
       (fetch_ml20m_ratings (.ok es) base n none
          (insertFS fs (zipPathOf base) (.zipFile es))).2.1,
       .download :: (fetch_ml20m_ratings (.ok es) base n none
          (insertFS fs (zipPathOf base) (.zipFile es))).2.2) := by
  simp [fetch_ml20m_ratings, hc, hz]

/-- One full resolution from the archive-only state, for an archive holding
exactly the dataset source file: the archive is extracted, deleted, and the
re-entered machine loads the source file. -/
theorem fetch_from_archive_ready (net : NetOutcome) (base : Path) (n : Nat) (fs : FS)
    (L : List String)
    (hc : lookupFS fs (csvPathOf base) = none)
    (hz : lookupFS fs (zipPathOf base) = some (.zipFile [(pathJoin dirname filename, L)])) :
    fetch_ml20m_ratings net base (n + 2) none fs =
      (dfOfLines L,
       removeFS (insertFS fs (csvPathOf base) (.text L)) (zipPathOf base),
       [.extract]) := by
  have hc' : existsFS fs (csvPathOf base) = false := (existsFS_false_iff fs _).mpr hc
  rw [fetch_archive_ready net base (n + 1) fs _ hc' hz]
  have hee : extractEntries base [(pathJoin dirname filename, L)] fs =
      insertFS fs (csvPathOf base) (.text L) := by
    simp [extractEntries, pathJoin_assoc_csv]
  rw [hee]
  have hcsv2 : lookupFS (removeFS (insertFS fs (csvPathOf base) (.text L)) (zipPathOf base))
      (csvPathOf base) = some (.text L) := by
    rw [lookupFS_removeFS]
    simp [csvPathOf_ne_zipPathOf base, lookupFS_insertFS]
  rw [fetch_source_ready net base n _ (existsFS_true_of_lookup hcsv2)]
  rw [ml20m_of_lookup hcsv2]

/-! ## Claim theorems -/

/-- C1, counterexample: the claim says that in override mode, for every
supplied path, the function proceeds directly to parsing and a load failure
surfaces as a data-format error.  With a path that does not exist on an empty
filesystem the call instead fails with an UnboundLocalError on zip_path and
performs no parsing, download, or extraction. -/
theorem C1_counterexample :
    fetch_ml20m_ratings .connFail "base" 1 (some "missing.csv") [] =
      (.error (.unboundLocal "zip_path"), [], []) := by decide

/-- C1, amended: in override mode an existence check IS performed on the
supplied path.  If the path exists the function proceeds directly to parsing
(a load failure surfaces as a data-format error from the loading adapter); if
it does not exist, the call fails with an UnboundLocalError on the
never-assigned local zip_path.  Either way the filesystem is unchanged and no
download or extraction happens. -/
theorem C1_override_check (net : NetOutcome) (base : Path) (n : Nat) (p : Path) (fs : FS) :
    fetch_ml20m_ratings net base (n + 1) (some p) fs =
      ((if existsFS fs p then ml20m_ratings_csv_to_df fs p
        else .error (.unboundLocal "zip_path")), fs, []) :=
  fetch_override_spec net base n p fs

/-- C2, counterexample: the claim says that for every failing fetch the cache
state after the error is the same as before the download branch ran.
Starting from an empty cache with a fetch that fails while streaming, the
archive path goes from absent to holding a partial file. -/
theorem C2_counterexample :
    lookupFS [] (zipPathOf "base") = none ∧
    lookupFS (fetch_ml20m_ratings .midStreamFail "base" 1 none []).2.1
        (zipPathOf "base") = some .partialData := by decide

/-- C2, amended: a fetch that fails at connection time leaves the cache
unchanged, but a fetch that fails while streaming the response body leaves a
partial archive file at archive_path (the output file is opened before the
copy starts and is not removed on failure). -/
theorem C2_network_failure_state (base : Path) (n : Nat) (fs : FS)
    (hc : existsFS fs (csvPathOf base) = false)
    (hz : existsFS fs (zipPathOf base) = false) :
    fetch_ml20m_ratings .connFail base (n + 1) none fs =
      (.error .transport, fs, [.download]) ∧
    fetch_ml20m_ratings .midStreamFail base (n + 1) none fs =
      (.error .transport, insertFS fs (zipPathOf base) .partialData, [.download]) ∧
    lookupFS (insertFS fs (zipPathOf base) .partialData) (zipPathOf base) =
      some .partialData := by
  refine ⟨fetch_empty_connFail base n fs hc hz, fetch_empty_midStream base n fs hc hz, ?_⟩
  simp [lookupFS_insertFS]

theorem C2_witness :
    fetch_ml20m_ratings .connFail "b" 1 none [] = (.error .transport, [], [.download]) ∧
    fetch_ml20m_ratings .midStreamFail "b" 1 none [] =
      (.error .transport, insertFS [] (zipPathOf "b") .partialData, [.download]) ∧
    lookupFS (insertFS [] (zipPathOf "b") .partialData) (zipPathOf "b") =
      some .partialData :=
  C2_network_failure_state "b" 0 [] (by decide) (by decide)

/-- C3: every table the loading adapter returns is sorted ascending by
timestamp and carries the contiguous zero-based index 0,1,2,..., whatever
the row order of the source file was. -/
theorem C3_sorted_contiguous (fs : FS) (p : Path) (df : Df)
    (h : ml20m_ratings_csv_to_df fs p = .ok df) :
    List.Sorted tsLe df ∧ df.map Prod.fst = List.range df.length := by
  unfold ml20m_ratings_csv_to_df at h
  cases hr : read_csv fs p with
  | error e => rw [hr] at h; cases h
  | ok df0 =>
      rw [hr] at h
      cases h
      exact ⟨sorted_reset_index (sorted_sort_values df0), reset_index_fst (sort_values df0)⟩

theorem C3_witness :
    List.Sorted tsLe
      [(0, { u_id := 2, i_id := 2, rating := mkRat 3 1, timestamp := mkRat 4 1 }),
       (1, { u_id := 1, i_id := 1, rating := mkRat 5 1, timestamp := mkRat 9 1 })] ∧
    List.map Prod.fst
      [(0, ({ u_id := 2, i_id := 2, rating := mkRat 3 1, timestamp := mkRat 4 1 } : Record)),
       (1, { u_id := 1, i_id := 1, rating := mkRat 5 1, timestamp := mkRat 9 1 })] =
      List.range (List.length
        [(0, ({ u_id := 2, i_id := 2, rating := mkRat 3 1, timestamp := mkRat 4 1 } : Record)),
         (1, { u_id := 1, i_id := 1, rating := mkRat 5 1, timestamp := mkRat 9 1 })]) :=
  C3_sorted_contiguous [("f", .text ["h", "1,1,5,9", "2,2,3,4"])] "f"
    [(0, { u_id := 2, i_id := 2, rating := mkRat 3 1, timestamp := mkRat 4 1 }),
     (1, { u_id := 1, i_id := 1, rating := mkRat 5 1, timestamp := mkRat 9 1 })]
    (by decide)

/-- C4: from each of the three cache starting states (source present, archive
only, empty), one invocation returns the identical table, assuming the
transport delivers an archive holding the dataset file and the source file
holds the same lines. -/
theorem C4_state_independence (base : Path) (n : Nat) (L : List String)
    (fs1 fs2 fs3 : FS)
    (h1 : lookupFS fs1 (csvPathOf base) = some (.text L))
    (h2c : lookupFS fs2 (csvPathOf base) = none)
    (h2z : lookupFS fs2 (zipPathOf base) =
      some (.zipFile [(pathJoin dirname filename, L)]))
    (h3c : lookupFS fs3 (csvPathOf base) = none)
    (h3z : lookupFS fs3 (zipPathOf base) = none) :
    (fetch_ml20m_ratings (.ok [(pathJoin dirname filename, L)]) base (n + 3) none fs1).1 =
      dfOfLines L ∧
    (fetch_ml20m_ratings (.ok [(pathJoin dirname filename, L)]) base (n + 3) none fs2).1 =
      dfOfLines L ∧
    (fetch_ml20m_ratings (.ok [(pathJoin dirname filename, L)]) base (n + 3) none fs3).1 =
      dfOfLines L := by
  refine ⟨?_, ?_, ?_⟩
  · rw [fetch_source_ready _ base (n + 2) fs1 (existsFS_true_of_lookup h1)]
    exact ml20m_of_lookup h1
  · rw [show n + 3 = (n + 1) + 2 by omega]
    rw [fetch_from_archive_ready _ base (n + 1) fs2 L h2c h2z]
  · have hc' : existsFS fs3 (csvPathOf base) = false := (existsFS_false_iff fs3 _).mpr h3c
    have hz' : existsFS fs3 (zipPathOf base) = false := (existsFS_false_iff fs3 _).mpr h3z
    rw [fetch_empty_ok base (n + 2) fs3 _ hc' hz']
    have hic : lookupFS (insertFS fs3 (zipPathOf base)
        (.zipFile [(pathJoin dirname filename, L)])) (csvPathOf base) = none := by
      rw [lookupFS_insertFS]
      simp [csvPathOf_ne_zipPathOf base, h3c]
    have hiz : lookupFS (insertFS fs3 (zipPathOf base)
        (.zipFile [(pathJoin dirname filename, L)])) (zipPathOf base) =
        some (.zipFile [(pathJoin dirname filename, L)]) := by
      rw [lookupFS_insertFS]
      simp
    rw [fetch_from_archive_ready _ base n _ L hic hiz]

theorem C4_witness :
    (fetch_ml20m_ratings (.ok [(pathJoin dirname filename, ["h", "1,1,5,9"])]) "b" 3 none
        [(csvPathOf "b", .text ["h", "1,1,5,9"])]).1 = dfOfLines ["h", "1,1,5,9"] ∧
    (fetch_ml20m_ratings (.ok [(pathJoin dirname filename, ["h", "1,1,5,9"])]) "b" 3 none
        [(zipPathOf "b", .zipFile [(pathJoin dirname filename, ["h", "1,1,5,9"])])]).1 =
      dfOfLines ["h", "1,1,5,9"] ∧
    (fetch_ml20m_ratings (.ok [(pathJoin dirname filename, ["h", "1,1,5,9"])]) "b" 3 none
        []).1 = dfOfLines ["h", "1,1,5,9"] :=
  C4_state_independence "b" 0 ["h", "1,1,5,9"]
    [(csvPathOf "b", .text ["h", "1,1,5,9"])]
    [(zipPathOf "b", .zipFile [(pathJoin dirname filename, ["h", "1,1,5,9"])])]
    [] (by decide) (by decide) (by decide) (by decide) (by decide)

/-- C5: starting from the archive-only state with an archive holding the
dataset file, after resolution the archive file no longer exists and the
source file does exist. -/
theorem C5_archive_consumed (net : NetOutcome) (base : Path) (n : Nat) (fs : FS)
    (L : List String)
    (hc : lookupFS fs (csvPathOf base) = none)
    (hz : lookupFS fs (zipPathOf base) =
      some (.zipFile [(pathJoin dirname filename, L)])) :
    lookupFS (fetch_ml20m_ratings net base (n + 2) none fs).2.1 (zipPathOf base) = none ∧
    existsFS (fetch_ml20m_ratings net base (n + 2) none fs).2.1 (csvPathOf base) = true := by
  rw [fetch_from_archive_ready net base n fs L hc hz]
  constructor
  · rw [lookupFS_removeFS]
    simp
  · have hl : lookupFS (removeFS (insertFS fs (csvPathOf base) (.text L)) (zipPathOf base))
        (csvPathOf base) = some (.text L) := by
      rw [lookupFS_removeFS]
      simp [csvPathOf_ne_zipPathOf base, lookupFS_insertFS]
    exact existsFS_true_of_lookup hl

theorem C5_witness :
    lookupFS (fetch_ml20m_ratings .connFail "b" 2 none
        [(zipPathOf "b", .zipFile [(pathJoin dirname filename, ["h"])])]).2.1
      (zipPathOf "b") = none ∧
    existsFS (fetch_ml20m_ratings .connFail "b" 2 none
        [(zipPathOf "b", .zipFile [(pathJoin dirname filename, ["h"])])]).2.1
      (csvPathOf "b") = true :=
  C5_archive_consumed .connFail "b" 0
    [(zipPathOf "b", .zipFile [(pathJoin dirname filename, ["h"])])] ["h"]
    (by decide) (by decide)

/-- C6, counterexample: the claim says the ARCHIVE_READY step extracts the
archive contents into directory_path = base/ml-20m.  Running the machine on
an archive holding an entry named f shows the entry lands at base/f, not at
directory_path/f. -/
theorem C6_counterexample :
    lookupFS (fetch_ml20m_ratings .connFail "b" 5 none
        [(zipPathOf "b", .zipFile [("f", ["x"])])]).2.1 (pathJoin "b" "f") =
      some (.text ["x"]) ∧
    lookupFS (fetch_ml20m_ratings .connFail "b" 5 none
        [(zipPathOf "b", .zipFile [("f", ["x"])])]).2.1
      (pathJoin (directory_path "b") "f") = none := by decide

/-- C6, amended: in the ARCHIVE_READY state the machine extracts the archive
contents into the base cache directory (data_dir_path, not the per-dataset
directory base/ml-20m), then deletes the archive file, then re-enters the
state machine from scratch. -/
theorem C6_extract_into_base (net : NetOutcome) (base : Path) (n : Nat) (fs : FS)
    (es : List (Path × List String))
    (hc : existsFS fs (csvPathOf base) = false)
    (hz : lookupFS fs (zipPathOf base) = some (.zipFile es)) :
    fetch_ml20m_ratings net base (n + 1) none fs =
      ((fetch_ml20m_ratings net base n none
          (removeFS (extractEntries base es fs) (zipPathOf base))).1,
       (fetch_ml20m_ratings net base n none
          (removeFS (extractEntries base es fs) (zipPathOf base))).2.1,
       .extract :: (fetch_ml20m_ratings net base n none
          (removeFS (extractEntries base es fs) (zipPathOf base))).2.2) :=
  fetch_archive_ready net base n fs es hc hz

theorem C6_witness :
    fetch_ml20m_ratings .connFail "b" 1 none [(zipPathOf "b", .zipFile [("f", ["x"])])] =
      ((fetch_ml20m_ratings .connFail "b" 0 none
          (removeFS (extractEntries "b" [("f", ["x"])]
            [(zipPathOf "b", .zipFile [("f", ["x"])])]) (zipPathOf "b"))).1,
       (fetch_ml20m_ratings .connFail "b" 0 none
          (removeFS (extractEntries "b" [("f", ["x"])]
            [(zipPathOf "b", .zipFile [("f", ["x"])])]) (zipPathOf "b"))).2.1,
       .extract :: (fetch_ml20m_ratings .connFail "b" 0 none
          (removeFS (extractEntries "b" [("f", ["x"])]
            [(zipPathOf "b", .zipFile [("f", ["x"])])]) (zipPathOf "b"))).2.2) :=
  C6_extract_into_base .connFail "b" 0 [(zipPathOf "b", .zipFile [("f", ["x"])])]
    [("f", ["x"])] (by decide) (by decide)

/-- C7: in SOURCE_READY the machine parses the source file and returns the
table with no recursion, no network fetch, no extraction and no archive
deletion (the filesystem is returned unchanged and the event trace is empty);
hence a second call returns the very same result while again doing no
network or extraction work. -/
theorem C7_source_ready_idempotent (net : NetOutcome) (base : Path) (n : Nat) (fs : FS)
    (L : List String)
    (h : lookupFS fs (csvPathOf base) = some (.text L)) :
    fetch_ml20m_ratings net base (n + 1) none fs = (dfOfLines L, fs, []) ∧
    fetch_ml20m_ratings net base (n + 1) none
        (fetch_ml20m_ratings net base (n + 1) none fs).2.1 =
      fetch_ml20m_ratings net base (n + 1) none fs := by
  have h1 : fetch_ml20m_ratings net base (n + 1) none fs = (dfOfLines L, fs, []) := by
    rw [fetch_source_ready net base n fs (existsFS_true_of_lookup h)]
    rw [ml20m_of_lookup h]
  refine ⟨h1, ?_⟩
  rw [h1]
  exact h1

theorem C7_witness :
    fetch_ml20m_ratings .connFail "b" 1 none [(csvPathOf "b", .text ["h"])] =
      (dfOfLines ["h"], [(csvPathOf "b", .text ["h"])], []) ∧
    fetch_ml20m_ratings .connFail "b" 1 none
        (fetch_ml20m_ratings .connFail "b" 1 none [(csvPathOf "b", .text ["h"])]).2.1 =
      fetch_ml20m_ratings .connFail "b" 1 none [(csvPathOf "b", .text ["h"])] :=
  C7_source_ready_idempotent .connFail "b" 0 [(csvPathOf "b", .text ["h"])] ["h"]
    (by decide)

/-- C8: when extraction of the archive raises, the archive file is not
deleted: the run errors out with the filesystem unchanged (so the archive is
still at archive_path) and a retried call attempts extraction of the same
file again, failing the same way. -/
theorem C8_bad_archive_kept (net : NetOutcome) (base : Path) (n : Nat) (fs : FS) (e : Err)
    (hc : existsFS fs (csvPathOf base) = false)
    (hz : existsFS fs (zipPathOf base) = true)
    (he : extractall fs (zipPathOf base) base = .error e) :
    fetch_ml20m_ratings net base (n + 1) none fs = (.error e, fs, [.extract]) ∧
    existsFS (fetch_ml20m_ratings net base (n + 1) none fs).2.1 (zipPathOf base) = true ∧
    fetch_ml20m_ratings net base (n + 1) none
        (fetch_ml20m_ratings net base (n + 1) none fs).2.1 =
      (.error e, fs, [.extract]) := by
  have h1 := fetch_extract_fail net base n fs e hc hz he
  refine ⟨h1, ?_, ?_⟩
  · rw [h1]
    exact hz
  · rw [h1]
    exact h1

theorem C8_witness :
    fetch_ml20m_ratings .connFail "b" 1 none [(zipPathOf "b", .partialData)] =
      (.error .archiveError, [(zipPathOf "b", .partialData)], [.extract]) ∧
    existsFS (fetch_ml20m_ratings .connFail "b" 1 none
        [(zipPathOf "b", .partialData)]).2.1 (zipPathOf "b") = true ∧
    fetch_ml20m_ratings .connFail "b" 1 none
        (fetch_ml20m_ratings .connFail "b" 1 none [(zipPathOf "b", .partialData)]).2.1 =
      (.error .archiveError, [(zipPathOf "b", .partialData)], [.extract]) :=
  C8_bad_archive_kept .connFail "b" 0 [(zipPathOf "b", .partialData)] .archiveError
    (by decide) (by decide) (by decide)

/-- C9: loading a source file that contains only the header row yields the
empty table, not an error. -/
theorem C9_header_only_empty (p : Path) (hdr : String) :
    ml20m_ratings_csv_to_df [(p, .text [hdr])] p = .ok [] := by
  simp [ml20m_ratings_csv_to_df, read_csv, lookupFS, parseCsvLines, parseRows,
    sort_values, reset_index, List.insertionSort]

/-- C10: calling fetch_ml20m_ratings with an explicit data_dir_path that does
not exist raises an error from reading the never-assigned local zip_path,
with no download or extraction attempted and no fallback to the
cache-resolution pipeline (the filesystem is unchanged and the event trace is
empty). -/
theorem C10_unbound_zip_path (net : NetOutcome) (base : Path) (n : Nat) (p : Path) (fs : FS)
    (h : existsFS fs p = false) :
    fetch_ml20m_ratings net base (n + 1) (some p) fs =
      (.error (.unboundLocal "zip_path"), fs, []) := by
  rw [fetch_override_spec]
  simp [h]

theorem C10_witness :
    fetch_ml20m_ratings .connFail "b" 1 (some "nowhere.csv") [] =
      (.error (.unboundLocal "zip_path"), [], []) :=
  C10_unbound_zip_path .connFail "b" 0 "nowhere.csv" [] (by decide)

end FunkSvd
